import Mathlib

/-!
Verification of the passport-jwt strategy repository: a shallow embedding of
the NestJsJwtDriver platform adapter (src/dist/cjs/platforms/nestjsjwt.js)
and of the strategy engine described by the design document, together with
theorems settling the behavioral claims about them.
-/

set_option linter.unusedVariables false

namespace PassportJwt

/-- A JavaScript runtime value, abstracted to exactly the features the code
inspects: its typeof class, its truthiness, and, for a candidate driver
object, whether a verify property exists and whether that property is
callable. -/
inductive JsVal where
  | nullV : JsVal
  | undefinedV : JsVal
  | boolV (b : Bool) : JsVal
  | numberV (n : Int) : JsVal
  | stringV (s : String) : JsVal
  | objectV (hasVerify : Bool) (verifyCallable : Bool) : JsVal
  | functionV : JsVal
deriving DecidableEq, Repr

/-- The string produced by the JavaScript typeof operator on each value
class; note typeof null is "object". -/
def JsVal.typeofStr : JsVal → String
  | .nullV => "object"
  | .undefinedV => "undefined"
  | .boolV _ => "boolean"
  | .numberV _ => "number"
  | .stringV _ => "string"
  | .objectV _ _ => "object"
  | .functionV => "function"

/-- JavaScript truthiness of a value. -/
def JsVal.truthy : JsVal → Bool
  | .nullV => false
  | .undefinedV => false
  | .boolV b => b
  | .numberV n => decide (n ≠ 0)
  | .stringV s => decide (s ≠ "")
  | .objectV _ _ => true
  | .functionV => true

/-- A thrown JavaScript error value: a TypeError or a plain Error, each
carrying a message. -/
inductive JsError where
  | typeError (msg : String) : JsError
  | plainError (msg : String) : JsError
deriving DecidableEq, Repr

/-- The message property of a thrown error. -/
def JsError.message : JsError → String
  | .typeError m => m
  | .plainError m => m

/-- Whether a thrown error is a TypeError. -/
def JsError.isTypeError : JsError → Bool
  | .typeError _ => true
  | .plainError _ => false

/-- Whether an Except-modelled JavaScript computation returned normally. -/
def constructionSucceeds {α : Type} : Except JsError α → Bool
  | .ok _ => true
  | .error _ => false

/-- Whether an Except-modelled JavaScript computation threw a TypeError. -/
def isTypeErrorResult {α : Type} : Except JsError α → Bool
  | .error e => e.isTypeError
  | .ok _ => false

/-- Verification options passed to the underlying verify operation; only the
fields the sources mention are kept, each optional. -/
structure VerifyOptions where
  algorithms : Option (List String) := none
  issuer : Option String := none
  audience : Option String := none
deriving DecidableEq, Repr

/-- Modelled from the spec: JwtDriver.getOptions lives in platforms/base,
which is not among the sources; per the spec, default verification options
are merged with caller-supplied options, caller-supplied values taking
precedence. -/
def mergeOptions (defaults caller : VerifyOptions) : VerifyOptions :=
  { algorithms := (caller.algorithms).orElse (fun _ => defaults.algorithms)
    issuer := (caller.issuer).orElse (fun _ => defaults.issuer)
    audience := (caller.audience).orElse (fun _ => defaults.audience) }

/-- The per-request verification result record of the drivers:
success flag, optional decoded payload, optional message. -/
structure JwtResult where
  success : Bool
  payload : Option JsVal := none
  message : Option String := none
deriving DecidableEq, Repr

/-- The state of a constructed NestJsJwtDriver: the wrapped nestjs jwt core
(its verify operation modelled as a function that either returns the decoded
payload or throws), the caller options and the default options set by the
constructor. -/
structure NestJsJwtDriver where
  verify : String → VerifyOptions → Except JsError JsVal
  options : Option VerifyOptions
  defaultOptions : VerifyOptions

/-- Merged options as used in the validate call, per the spec description of
the base class: defaults overridden by caller options. -/
def NestJsJwtDriver.getOptions (d : NestJsJwtDriver) : VerifyOptions :=
  mergeOptions d.defaultOptions (d.options.getD {})

/-- NestJsJwtDriver.prototype.validate from src/dist/cjs/platforms/nestjsjwt.js
lines 19 to 35: the result starts as success false with no message; the
wrapped verify is called with the token and the merged options only (the
keyOrSecret argument is not passed on); a normal return marks success and
stores the payload, a throw is caught and stores the thrown message. The
function always returns a result record. -/
def NestJsJwtDriver.validate (d : NestJsJwtDriver) (token : String)
    (keyOrSecret : String) : JwtResult :=
  match d.verify token d.getOptions with
  | .ok validation => { success := true, payload := some validation, message := none }
  | .error err => { success := false, payload := none, message := some err.message }

/-- The TypeError message thrown by the NestJsJwtDriver constructor
(quotation marks of the original text elided). -/
def incompatibleCoreMessage : String :=
  "A none @nestjs/jwt compatible core has been passed."

/-- The JavaScript in operator applied as (verify in v): on null it throws a
TypeError, on a non-object primitive it throws a TypeError, on an object it
reports whether the property exists; a function carries no verify property
in this model. -/
def jsInVerify : JsVal → Except JsError Bool
  | .objectV hasVerify _ => .ok hasVerify
  | .functionV => .ok false
  | v => .error (.typeError ("Cannot use in operator to search for verify in " ++ v.typeofStr))

/-- Whether the verify member of the value is a function, as tested by
typeof driver[verify] on an object. -/
def verifyMemberIsFunction : JsVal → Bool
  | .objectV _ verifyCallable => verifyCallable
  | _ => false

/-- The NestJsJwtDriver constructor from src/dist/cjs/platforms/nestjsjwt.js
lines 8 to 18: evaluates, left to right with short-circuiting as in the
source disjunction, typeof driver not object, then verify not in driver
(where the in operator itself may throw on null), then the verify member not
being a function; any true disjunct throws the TypeError; otherwise the
instance is built with the caller options and defaultOptions fixed to
algorithms HS256. The verifyImpl argument is the Lean-level semantics of the
verify member of the passed core. -/
def constructNestJsJwtDriver (driver : JsVal)
    (verifyImpl : String → VerifyOptions → Except JsError JsVal)
    (options : Option VerifyOptions) : Except JsError NestJsJwtDriver :=
  if driver.typeofStr ≠ "object" then
    .error (.typeError incompatibleCoreMessage)
  else
    match jsInVerify driver with
    | .error e => .error e
    | .ok hasV =>
      if hasV then
        if verifyMemberIsFunction driver then
          .ok { verify := verifyImpl, options := options,
                defaultOptions := { algorithms := some ["HS256"] } }
        else .error (.typeError incompatibleCoreMessage)
      else .error (.typeError incompatibleCoreMessage)

/-- The predicate of the claim about construction: the passed value is an
object exposing a callable verify member. -/
def exposesCallableVerify : JsVal → Bool
  | .objectV true true => true
  | _ => false

/-- Modelled from the spec: the errors the strategy engine itself can report.
The jwt_strategy module is not among the sources. The timeout error is a
type-tagged TypeError distinct from the type-mismatch error raised on a bad
synchronous provider return; a raised error carries the exact value produced
by a collaborator (a rejected provider promise or the user callback). -/
inductive StratError where
  | timeoutError : StratError
  | providerReturnTypeError : StratError
  | raised (v : JsVal) : StratError
deriving DecidableEq, Repr

/-- Modelled from the spec: the terminal outcome of one authentication
attempt, reported through exactly one of the three host channels. The
jwt_strategy module is not among the sources. -/
inductive Outcome where
  | success (user : JsVal) (info : JsVal) : Outcome
  | failure (info : JsVal) : Outcome
  | error (err : StratError) : Outcome
deriving DecidableEq, Repr

/-- Modelled from the spec: an opaque host request value, passed through the
engine unexamined. -/
structure Request where
  id : Nat
deriving DecidableEq, Repr

/-- Modelled from the spec: the observable behavior of one invocation of a
secretOrKeyProvider, with completion times in abstract ticks. The provider
may return undefined and later invoke the completion callback with an error
or a key (a none key models null or absent), return a promise that resolves
to a key or to null or that rejects, synchronously return any other
non-promise non-undefined value, or return undefined and never complete. -/
inductive ProviderBehavior where
  | viaCallback (err : Option JsVal) (key : Option String) (t : Nat) : ProviderBehavior
  | resolves (key : Option String) (t : Nat) : ProviderBehavior
  | rejects (e : JsVal) (t : Nat) : ProviderBehavior
  | syncValue (v : JsVal) : ProviderBehavior
  | silent : ProviderBehavior
deriving DecidableEq, Repr

/-- Modelled from the spec: the configured key source, exactly one of a
static key or a provider function. -/
inductive KeySource where
  | staticKey (k : String) : KeySource
  | provider : KeySource
deriving DecidableEq, Repr

/-- Modelled from the spec: the timer of the provider race fires first when a
numeric timeout T is configured and the completion of the provider happens
strictly later than T in the single-threaded step ordering. -/
def timerFiresFirst (timeout : Option Nat) (t : Nat) : Bool :=
  match timeout with
  | none => false
  | some T => decide (T < t)

/-- Modelled from the spec: the result of the key-resolution step, either the
resolved key, an immediate terminal outcome short-circuiting the attempt, or
no completion at all (nothing is ever reported). -/
inductive ResolveResult where
  | key (k : String) : ResolveResult
  | shortCircuit (o : Outcome) : ResolveResult
  | hang : ResolveResult
deriving DecidableEq, Repr

/-- Modelled from the spec: the fixed failure message for a provider yielding
no key. -/
def providerNoKeyMessage : String := "Provider did not return a key."

/-- Modelled from the spec and the repository tests: the outcome mapping of
the key-provider behaviors, for the jwt_strategy module absent from the
sources. A synchronous non-promise, non-undefined return is detected
immediately as a type mismatch and never used as a key. Otherwise the
completion races the optional timer, and a completion the timer beat is
discarded with no effect. Per the tests in src/test/strategy-verify-test.js,
an error given to the completion callback becomes a Failure carrying that
exact value, a rejected promise becomes an Error carrying the rejection
value, and a null or absent key becomes the fixed Failure message. -/
def resolveProvider (timeout : Option Nat) (pb : ProviderBehavior) : ResolveResult :=
  match pb with
  | .syncValue _ => .shortCircuit (.error .providerReturnTypeError)
  | .silent =>
    match timeout with
    | some _ => .shortCircuit (.error .timeoutError)
    | none => .hang
  | .viaCallback err key t =>
    if timerFiresFirst timeout t then .shortCircuit (.error .timeoutError)
    else
      match err with
      | some e => .shortCircuit (.failure e)
      | none =>
        match key with
        | some k => .key k
        | none => .shortCircuit (.failure (.stringV providerNoKeyMessage))
  | .resolves key t =>
    if timerFiresFirst timeout t then .shortCircuit (.error .timeoutError)
    else
      match key with
      | some k => .key k
      | none => .shortCircuit (.failure (.stringV providerNoKeyMessage))
  | .rejects e t =>
    if timerFiresFirst timeout t then .shortCircuit (.error .timeoutError)
    else .shortCircuit (.error (.raised e))

/-- Modelled from the spec: the whole key-resolution step; a static key
resolves immediately, a provider resolves per its behavior. -/
def resolveKey (timeout : Option Nat) (ks : KeySource) (pb : ProviderBehavior) :
    ResolveResult :=
  match ks with
  | .staticKey k => .key k
  | .provider => resolveProvider timeout pb

/-- Modelled from the spec: the user verify callback either invokes
next(err, user, info) once or throws synchronously. -/
inductive CallbackBehavior where
  | next (err : Option JsVal) (user : JsVal) (info : JsVal) : CallbackBehavior
  | throws (e : JsVal) : CallbackBehavior
deriving DecidableEq, Repr

/-- Modelled from the spec: translation of the user callback completion into
an outcome; an error passed to next or a value thrown by the callback is
caught and becomes an Error outcome carrying it, a null error with a truthy
user a Success, a null error with a falsy user a Failure carrying info. -/
def callbackOutcome : CallbackBehavior → Outcome
  | .next (some e) _ _ => .error (.raised e)
  | .next none user info => if user.truthy then .success user info else .failure info
  | .throws e => .error (.raised e)

/-- Modelled from the spec: the construction-time options the engine consults
per request, for the jwt_strategy module absent from the sources. -/
structure StrategyConfig where
  jwtFromRequest : Request → Option String
  keySource : KeySource
  checkIfProviderWorksTimeout : Option Nat := none
  passReqToCallback : Bool := false

/-- Modelled from the spec: either exactly one outcome reported to the host,
or no report at all (a provider that never completes with no timeout
configured). -/
inductive EngineResult where
  | reported (o : Outcome) : EngineResult
  | noReport : EngineResult
deriving DecidableEq, Repr

/-- Modelled from the spec: the generic failure message used when an
unsuccessful driver result carries no message; the spec does not fix its
text and no claim depends on it. -/
def genericFailureMessage : String := "Unknown Driver Error"

/-- Modelled from the spec: the per-request state machine of the strategy
engine, for the jwt_strategy module absent from the sources. Extraction
first (no token reports Failure with message No auth token, the driver never
runs); then key resolution, whose Error and Failure results short-circuit
and whose hanging resolution reports nothing; then driver validation
(an unsuccessful result reports Failure carrying the driver message or the
generic one); then the user verify callback, receiving the request exactly
when passReqToCallback is set, its completion translated by
callbackOutcome. -/
def authenticate (cfg : StrategyConfig) (drv : String → String → JwtResult)
    (pb : ProviderBehavior) (cb : Option Request → JsVal → CallbackBehavior)
    (req : Request) : EngineResult :=
  match cfg.jwtFromRequest req with
  | none => .reported (.failure (.stringV "No auth token"))
  | some token =>
    match resolveKey cfg.checkIfProviderWorksTimeout cfg.keySource pb with
    | .hang => .noReport
    | .shortCircuit o => .reported o
    | .key k =>
      let r := drv token k
      if r.success then
        .reported (callbackOutcome
          (cb (if cfg.passReqToCallback then some req else none)
            (r.payload.getD .undefinedV)))
      else
        .reported (.failure (.stringV (r.message.getD genericFailureMessage)))

/-- Modelled from the spec: the provider has not completed when a timer set
at T fires: it either never completes, or its completion is strictly later
than T; a synchronous bad return counts as already completed. -/
def lateOrSilent (T : Nat) : ProviderBehavior → Prop
  | .silent => True
  | .viaCallback _ _ t => T < t
  | .resolves _ t => T < t
  | .rejects _ t => T < t
  | .syncValue _ => False

/-- Key resolution with a configured timeout and a provider that has not
completed when the timer fires always produces the timeout error. -/
theorem resolveProvider_timeout (T : Nat) (pb : ProviderBehavior)
    (h : lateOrSilent T pb) :
    resolveProvider (some T) pb = .shortCircuit (.error .timeoutError) := by
  cases pb with
  | silent => rfl
  | syncValue v => exact absurd h (by simp [lateOrSilent])
  | viaCallback e k t =>
    simp only [lateOrSilent] at h
    simp [resolveProvider, timerFiresFirst, h]
  | resolves k t =>
    simp only [lateOrSilent] at h
    simp [resolveProvider, timerFiresFirst, h]
  | rejects e t =>
    simp only [lateOrSilent] at h
    simp [resolveProvider, timerFiresFirst, h]

/-- A concrete request used by the witnesses. -/
def sampleReq : Request := ⟨0⟩

/-- A driver function that always validates successfully with an object
payload. -/
def okDriver : String → String → JwtResult :=
  fun _ _ => { success := true, payload := some (.objectV false false), message := none }

/-- A user callback that authorizes a fixed truthy user. -/
def okCallback : Option Request → JsVal → CallbackBehavior :=
  fun _ _ => .next none (.objectV false false) (.stringV "info")

/-- A user callback that throws. -/
def throwingCallback : Option Request → JsVal → CallbackBehavior :=
  fun _ _ => .throws (.stringV "EXCEPTION")

/-- A configuration whose extractor finds no token. -/
def noTokenCfg : StrategyConfig :=
  { jwtFromRequest := fun _ => none, keySource := .staticKey "secret" }

/-- A configuration with a fixed-token extractor and a static key. -/
def staticCfg : StrategyConfig :=
  { jwtFromRequest := fun _ => some "header.payload.sig"
    keySource := .staticKey "secret" }

/-- A configuration with a fixed-token extractor and a key provider. -/
def providerCfg : StrategyConfig :=
  { jwtFromRequest := fun _ => some "an undecoded jwt string"
    keySource := .provider }

/-- A provider configuration with a 500 tick timeout. -/
def timeoutCfg : StrategyConfig :=
  { jwtFromRequest := fun _ => some "an undecoded jwt string"
    keySource := .provider
    checkIfProviderWorksTimeout := some 500 }

/-- The provider of the repository test that invokes its completion callback
with an error value. -/
def callbackErrorProvider : ProviderBehavior :=
  .viaCallback (some (.stringV "Error occurred looking for the secret")) none 0

/-- A concrete driver state whose wrapped verify always throws. -/
def throwingDriver : NestJsJwtDriver :=
  { verify := fun _ _ => .error (.plainError "jwt expired")
    options := none
    defaultOptions := { algorithms := some ["HS256"] } }

/-- C2: for every driver state, token and key, if the wrapped verify
operation throws during validate, the exception is caught and validate
returns a result with success false and message equal to the message of the
exception; validate totally returns a result record, so no exception
propagates out of it. -/
theorem validate_catches_exceptions (d : NestJsJwtDriver) (token key : String)
    (e : JsError) (h : d.verify token d.getOptions = .error e) :
    d.validate token key =
      { success := false, payload := none, message := some e.message } := by
  simp [NestJsJwtDriver.validate, h]

/-- Witness for C2 at a concrete throwing driver. -/
theorem validate_catches_exceptions_witness :
    throwingDriver.verify "tok" throwingDriver.getOptions = .error (.plainError "jwt expired") ∧
    throwingDriver.validate "tok" "secret" =
      { success := false, payload := none, message := some "jwt expired" } :=
  ⟨rfl, validate_catches_exceptions throwingDriver "tok" "secret" (.plainError "jwt expired") rfl⟩

/-- C9: construction of a NestJsJwtDriver succeeds exactly when the passed
value is an object exposing a callable verify member, and in every other
case it throws a TypeError (through the explicit guard, or through the in
operator on null). -/
theorem constructor_requires_callable_verify (driver : JsVal)
    (verifyImpl : String → VerifyOptions → Except JsError JsVal)
    (options : Option VerifyOptions) :
    constructionSucceeds (constructNestJsJwtDriver driver verifyImpl options) =
      exposesCallableVerify driver ∧
    isTypeErrorResult (constructNestJsJwtDriver driver verifyImpl options) =
      !exposesCallableVerify driver := by
  cases driver with
  | objectV hv vc => cases hv <;> cases vc <;> exact ⟨rfl, rfl⟩
  | nullV => exact ⟨rfl, rfl⟩
  | undefinedV => exact ⟨rfl, rfl⟩
  | boolV b => exact ⟨rfl, rfl⟩
  | numberV n => exact ⟨rfl, rfl⟩
  | stringV s => exact ⟨rfl, rfl⟩
  | functionV => exact ⟨rfl, rfl⟩

/-- C10: validate never passes its keyOrSecret argument to the wrapped
verify operation: for a fixed driver state and token its result is identical
for any two keys. -/
theorem validate_ignores_key (d : NestJsJwtDriver) (token k1 k2 : String) :
    d.validate token k1 = d.validate token k2 := rfl

/-- C5: a request from which the extractor produces no token reports Failure
with message No auth token, and the verification driver is never consulted:
the result is identical for any two drivers. -/
theorem no_token_reports_failure (cfg : StrategyConfig)
    (drv1 drv2 : String → String → JwtResult) (pb : ProviderBehavior)
    (cb : Option Request → JsVal → CallbackBehavior) (req : Request)
    (h : cfg.jwtFromRequest req = none) :
    authenticate cfg drv1 pb cb req =
      .reported (.failure (.stringV "No auth token")) ∧
    authenticate cfg drv1 pb cb req = authenticate cfg drv2 pb cb req := by
  constructor <;> simp [authenticate, h]

/-- Witness for C5 at a concrete configuration without a token. -/
theorem no_token_reports_failure_witness :
    noTokenCfg.jwtFromRequest sampleReq = none ∧
    authenticate noTokenCfg okDriver .silent okCallback sampleReq =
      .reported (.failure (.stringV "No auth token")) :=
  ⟨rfl, (no_token_reports_failure noTokenCfg okDriver okDriver .silent okCallback
    sampleReq rfl).1⟩

/-- C6: when extraction yields a token, key resolution yields a key, the
driver validates successfully, and the user verify callback invokes
next(null, user, info) with a truthy user, the attempt reports exactly
Success(user, info). -/
theorem success_chain_reports_success (cfg : StrategyConfig)
    (drv : String → String → JwtResult) (pb : ProviderBehavior)
    (cb : Option Request → JsVal → CallbackBehavior) (req : Request)
    (token k : String) (user info : JsVal)
    (hx : cfg.jwtFromRequest req = some token)
    (hk : resolveKey cfg.checkIfProviderWorksTimeout cfg.keySource pb = .key k)
    (hd : (drv token k).success = true)
    (hc : cb (if cfg.passReqToCallback then some req else none)
            ((drv token k).payload.getD .undefinedV) = .next none user info)
    (hu : user.truthy = true) :
    authenticate cfg drv pb cb req = .reported (.success user info) := by
  simp [authenticate, hx, hk, hd, hc, callbackOutcome, hu]

/-- Witness for C6 along the fully successful chain. -/
theorem success_chain_reports_success_witness :
    authenticate staticCfg okDriver .silent okCallback sampleReq =
      .reported (.success (.objectV false false) (.stringV "info")) :=
  success_chain_reports_success staticCfg okDriver .silent okCallback sampleReq
    "header.payload.sig" "secret" (.objectV false false) (.stringV "info")
    rfl rfl rfl rfl rfl

/-- C7: when the user verify callback is reached, a non-null error passed to
next, or a value thrown synchronously by the callback, makes the attempt
report an Error outcome carrying exactly that value; the engine still
returns a reported result, so the thrown value does not propagate uncaught
to the host. -/
theorem callback_error_reports_error (cfg : StrategyConfig)
    (drv : String → String → JwtResult) (pb : ProviderBehavior)
    (cb : Option Request → JsVal → CallbackBehavior) (req : Request)
    (token k : String) (e user info : JsVal)
    (hx : cfg.jwtFromRequest req = some token)
    (hk : resolveKey cfg.checkIfProviderWorksTimeout cfg.keySource pb = .key k)
    (hd : (drv token k).success = true) :
    (cb (if cfg.passReqToCallback then some req else none)
        ((drv token k).payload.getD .undefinedV) = .next (some e) user info →
      authenticate cfg drv pb cb req = .reported (.error (.raised e))) ∧
    (cb (if cfg.passReqToCallback then some req else none)
        ((drv token k).payload.getD .undefinedV) = .throws e →
      authenticate cfg drv pb cb req = .reported (.error (.raised e))) := by
  constructor <;> intro hc <;> simp [authenticate, hx, hk, hd, hc, callbackOutcome]

/-- Witness for C7 with a concrete throwing callback. -/
theorem callback_error_reports_error_witness :
    authenticate staticCfg okDriver .silent throwingCallback sampleReq =
      .reported (.error (.raised (.stringV "EXCEPTION"))) :=
  (callback_error_reports_error staticCfg okDriver .silent throwingCallback sampleReq
    "header.payload.sig" "secret" (.stringV "EXCEPTION") .undefinedV .undefinedV
    rfl rfl rfl).2 rfl

/-- C8: a provider that gives a null or absent key, through its completion
callback or through a resolved promise, makes the attempt report Failure
with exactly the message Provider did not return a key. -/
theorem provider_null_key_reports_failure (cfg : StrategyConfig)
    (drv : String → String → JwtResult)
    (cb : Option Request → JsVal → CallbackBehavior) (req : Request)
    (token : String) (t : Nat)
    (hx : cfg.jwtFromRequest req = some token)
    (hks : cfg.keySource = .provider)
    (ht : timerFiresFirst cfg.checkIfProviderWorksTimeout t = false) :
    authenticate cfg drv (.viaCallback none none t) cb req =
      .reported (.failure (.stringV "Provider did not return a key.")) ∧
    authenticate cfg drv (.resolves none t) cb req =
      .reported (.failure (.stringV "Provider did not return a key.")) := by
  constructor <;>
    simp [authenticate, hx, hks, resolveKey, resolveProvider, ht, providerNoKeyMessage]

/-- Witness for C8 with a provider resolving null. -/
theorem provider_null_key_reports_failure_witness :
    authenticate providerCfg okDriver (.resolves none 0) okCallback sampleReq =
      .reported (.failure (.stringV "Provider did not return a key.")) :=
  (provider_null_key_reports_failure providerCfg okDriver okCallback sampleReq
    "an undecoded jwt string" 0 rfl rfl rfl).2

/-- C4: a provider that synchronously returns a non-promise, non-key value
and never invokes its callback makes the attempt report an Error outcome
with the type-mismatch error; the returned value is never used as a
verification key: the result is identical for any two drivers. -/
theorem provider_sync_value_reports_type_error (cfg : StrategyConfig)
    (drv1 drv2 : String → String → JwtResult)
    (cb : Option Request → JsVal → CallbackBehavior) (req : Request)
    (token : String) (v : JsVal)
    (hx : cfg.jwtFromRequest req = some token)
    (hks : cfg.keySource = .provider) :
    authenticate cfg drv1 (.syncValue v) cb req =
      .reported (.error .providerReturnTypeError) ∧
    authenticate cfg drv1 (.syncValue v) cb req =
      authenticate cfg drv2 (.syncValue v) cb req := by
  constructor <;> simp [authenticate, hx, hks, resolveKey, resolveProvider]

/-- Witness for C4 with a provider returning an object literal. -/
theorem provider_sync_value_reports_type_error_witness :
    authenticate providerCfg okDriver (.syncValue (.objectV false false)) okCallback sampleReq =
      .reported (.error .providerReturnTypeError) :=
  (provider_sync_value_reports_type_error providerCfg okDriver okDriver okCallback
    sampleReq "an undecoded jwt string" (.objectV false false) rfl rfl).1

/-- C3: with a numeric timeout configured and a provider that has not
completed when the timer fires, the attempt reports an Error outcome with
the type-tagged timeout error, which is distinct from the normal resolution
type-mismatch error; any late completion is ignored with no effect on the
outcome: two runs differing only in the late behavior report the identical
result. -/
theorem provider_timeout_reports_timeout_error (cfg : StrategyConfig)
    (drv : String → String → JwtResult)
    (cb : Option Request → JsVal → CallbackBehavior) (req : Request)
    (token : String) (T : Nat) (pb1 pb2 : ProviderBehavior)
    (hx : cfg.jwtFromRequest req = some token)
    (hks : cfg.keySource = .provider)
    (hT : cfg.checkIfProviderWorksTimeout = some T)
    (h1 : lateOrSilent T pb1) (h2 : lateOrSilent T pb2) :
    authenticate cfg drv pb1 cb req = .reported (.error .timeoutError) ∧
    authenticate cfg drv pb1 cb req = authenticate cfg drv pb2 cb req ∧
    StratError.timeoutError ≠ StratError.providerReturnTypeError := by
  refine ⟨?_, ?_, by decide⟩
  · simp [authenticate, hx, hks, hT, resolveKey, resolveProvider_timeout T pb1 h1]
  · simp [authenticate, hx, hks, hT, resolveKey, resolveProvider_timeout T pb1 h1,
      resolveProvider_timeout T pb2 h2]

/-- Witness for C3 with a silent provider and a late resolver. -/
theorem provider_timeout_reports_timeout_error_witness :
    authenticate timeoutCfg okDriver .silent okCallback sampleReq =
      .reported (.error .timeoutError) :=
  (provider_timeout_reports_timeout_error timeoutCfg okDriver okCallback sampleReq
    "an undecoded jwt string" 500 .silent (.resolves (some "late") 501)
    rfl rfl rfl trivial (by simp only [lateOrSilent]; decide)).1

/-- C1 counterexample: a provider invoking its completion callback with an
error value ends the attempt in a Failure outcome carrying that exact value,
not in the Error outcome carrying that error which the claim requires; this
is the behavior the repository test asserts through its fail channel at
src/test/strategy-verify-test.js lines 228 to 257. -/
theorem provider_callback_error_not_error_outcome :
    authenticate providerCfg okDriver callbackErrorProvider okCallback sampleReq =
      .reported (.failure (.stringV "Error occurred looking for the secret")) ∧
    authenticate providerCfg okDriver callbackErrorProvider okCallback sampleReq ≠
      .reported (.error (.raised (.stringV "Error occurred looking for the secret"))) :=
  ⟨rfl, by decide⟩

/-- C1 amended: a provider returning a promise that rejects ends the attempt
in an Error outcome carrying exactly the rejection value, while a provider
invoking its completion callback with an error value ends it in a Failure
outcome carrying exactly that value (in both cases when no configured timer
fires first). -/
theorem provider_error_outcomes (cfg : StrategyConfig)
    (drv : String → String → JwtResult)
    (cb : Option Request → JsVal → CallbackBehavior) (req : Request)
    (token : String) (e : JsVal) (t : Nat)
    (hx : cfg.jwtFromRequest req = some token)
    (hks : cfg.keySource = .provider)
    (ht : timerFiresFirst cfg.checkIfProviderWorksTimeout t = false) :
    authenticate cfg drv (.rejects e t) cb req =
      .reported (.error (.raised e)) ∧
    (∀ key : Option String,
      authenticate cfg drv (.viaCallback (some e) key t) cb req =
        .reported (.failure e)) := by
  constructor
  · simp [authenticate, hx, hks, resolveKey, resolveProvider, ht]
  · intro key
    simp [authenticate, hx, hks, resolveKey, resolveProvider, ht]

/-- Witness for the amended C1 with a rejecting provider. -/
theorem provider_error_outcomes_witness :
    authenticate providerCfg okDriver (.rejects (.stringV "reject reason") 0) okCallback sampleReq =
      .reported (.error (.raised (.stringV "reject reason"))) :=
  (provider_error_outcomes providerCfg okDriver okCallback sampleReq
    "an undecoded jwt string" (.stringV "reject reason") 0 rfl rfl rfl).1

end PassportJwt
